import Mathlib

/-!
# A trace model of `main` (Blender Object Importer / GLFW_window / main.cpp)

`main` is one function body that only calls GLFW, GLEW/OpenGL, GLM and the
helper classes `GLSLProgram`, `TextureManager` and `Mesh`.  Its behaviour is
the sequence of calls it makes, the arguments it passes and the status it
exits with.  The embedding therefore is

* `Env`     : what the outside world answers (results of the library calls),
* `Op`      : one call made by `main`, with its arguments,
* `Locals`  : the local variables that live across loop iterations,
* `frame`   : the body of the `while` loop,
* `whileLoop` : the `while` loop, bounded by a fuel counter,
* `main`    : the function itself, giving the trace and the exit status.

The destructor of `shaders` does not appear: `exit` does not unwind the
stack.  The two callbacks run inside GLFW; what they do reaches `main` only
through the answers of `glfwWindowShouldClose`.

Numbers: `int` values are integers.  A `float` or `double` value is given
by the rational it stands for, or is an infinity or not-a-number
(`FloatVal`).  Every floating-point operation of `main` rounds its exact
result to the nearest value of its format, ties to even
(`FloatFormat.round`): the conversion `(float)height`, the division on line
100 and the literals of line 107 in binary32, the subtraction on line 127 in
binary64, as on an implementation that evaluates `float` operations in
binary32 and `double` operations in binary64.  The sign of zero is not
kept.  The components of the `glm::vec3` constants are literals that
binary32 holds exactly and are written as such.
-/

namespace S3DImporter

/-! ## Data -/

/-- Exit statuses handed to `exit`. -/
inductive ExitStatus where
  | EXIT_SUCCESS
  | EXIT_FAILURE
deriving DecidableEq, Repr

/-- The two members of `GLSLShader::GLSLShaderType` that `main` mentions. -/
inductive GLSLShaderType where
  | VERTEX
  | FRAGMENT
deriving DecidableEq, Repr

/-- A `glm::vec3`. -/
structure Vec3 where
  x : ℚ
  y : ℚ
  z : ℚ
deriving DecidableEq

/-- A `float` value: a finite number, an infinity, or not-a-number. -/
inductive FloatVal where
  | finite (q : ℚ)
  | infinite (negative : Bool)
  | nan
deriving DecidableEq

/-- The finite value, if the float is finite. -/
def FloatVal.toRat? : FloatVal → Option ℚ
  | .finite q => some q
  | _ => none

/-- The comparison `x > 0` on floats. -/
def FloatVal.isPositive : FloatVal → Bool
  | .finite q => decide (0 < q)
  | .infinite negative => !negative
  | .nan => false

/-- A binary floating-point format: the number of significand bits, the
exponent of the least positive value and the exponent of the leading bit of
the greatest finite value. -/
structure FloatFormat where
  precision : Nat
  emin : Int
  emax : Int

/-- The format of `float`. -/
def binary32 : FloatFormat := ⟨24, -149, 127⟩

/-- The format of `double`. -/
def binary64 : FloatFormat := ⟨53, -1074, 1023⟩

/-- Halving `n` until it is below two, at most `fuel` times, counting the
steps. -/
def log2Fuel : Nat → Nat → Nat
  | 0, _ => 0
  | fuel + 1, n => if n < 2 then 0 else log2Fuel fuel (n / 2) + 1

/-- The position of the leading bit of `n`: the greatest `l` with
`2 ^ l ≤ n`, for positive `n`. -/
def floorLog2 (n : Nat) : Nat := log2Fuel n n

/-- The greatest `e` with `2 ^ e ≤ a / b`, for positive `a` and `b`. -/
def floorLog2Quot (a b : Nat) : Int :=
  let k : Int := (floorLog2 a : Int) - (floorLog2 b : Int)
  if 0 ≤ k then (if b * 2 ^ k.toNat ≤ a then k else k - 1)
  else (if b ≤ a * 2 ^ (-k).toNat then k else k - 1)

/-- The integer nearest to `n / d`, the even one of two equally near. -/
def roundHalfEven (n d : Nat) : Nat :=
  if 2 * (n % d) < d then n / d
  else if d < 2 * (n % d) then n / d + 1
  else if (n / d) % 2 = 0 then n / d else n / d + 1

/-- The exponent of the unit in the last place for a value of size `a / b`:
`precision - 1` below the leading bit, but not below `emin`. -/
def FloatFormat.ulpExponent (f : FloatFormat) (a b : Nat) : Int :=
  max (floorLog2Quot a b - ((f.precision : Int) - 1)) f.emin

/-- The number of units in the last place nearest to `a / b`. -/
def FloatFormat.significand (f : FloatFormat) (a b : Nat) : Nat :=
  if 0 ≤ f.ulpExponent a b then roundHalfEven a (b * 2 ^ (f.ulpExponent a b).toNat)
  else roundHalfEven (a * 2 ^ (-f.ulpExponent a b).toNat) b

/-- Rounding of an exact result to the format: to nearest, ties to even,
with gradual underflow, and to an infinity from `2 ^ (emax + 1)` on. -/
def FloatFormat.round (f : FloatFormat) (x : ℚ) : FloatVal :=
  if x = 0 then .finite 0
  else
    let v : ℚ := (f.significand x.num.natAbs x.den : ℚ) * 2 ^ f.ulpExponent x.num.natAbs x.den
    if (2 : ℚ) ^ (f.emax + 1) ≤ v then .infinite (decide (x < 0))
    else .finite (if x < 0 then -v else v)

/-- The conversion of an `int` to `float`. -/
def float32OfInt (i : Int) : FloatVal := binary32.round (i : ℚ)

/-- Division of two `float` values.  A zero divisor gives not-a-number for
a zero dividend and otherwise an infinity with the sign of the dividend. -/
def FloatVal.div32 : FloatVal → FloatVal → FloatVal
  | .nan, _ => .nan
  | _, .nan => .nan
  | .infinite _, .infinite _ => .nan
  | .infinite n, .finite b => .infinite (n != decide (b < 0))
  | .finite _, .infinite _ => .finite 0
  | .finite a, .finite b =>
    if b = 0 then
      if a = 0 then .nan else .infinite (decide (a < 0))
    else binary32.round (a / b)

/-- The expression `width / (float)height` with `int width, height`: both
operands are converted to `float` and the division is a `float` division,
not the truncating division of integers. -/
def FloatVal.intDivFloat (width height : Int) : FloatVal :=
  (float32OfInt width).div32 (float32OfInt height)

/-- A `glm::mat4`, recorded by the GLM call that built it. -/
inductive Mat4 where
  /-- The default-constructed matrix. -/
  | default
  /-- The matrix `glm::perspective(fovy, aspect, zNear, zFar)`. -/
  | perspective (fovy aspect zNear zFar : FloatVal)
  /-- The matrix `glm::lookAt(eye, center, up)`. -/
  | lookAt (eye center up : Vec3)
deriving DecidableEq

/-- The value argument of the overloaded `GLSLProgram::setUniform`. -/
inductive UniformValue where
  | mat4 (m : Mat4)
  | vec3 (v : Vec3)
deriving DecidableEq

/-- The OpenGL enumerants `main` passes. -/
inductive GLenum where
  | GL_BLEND
  | GL_DEPTH_TEST
  | GL_CULL_FACE
  | GL_PRIMITIVE_RESTART
  | GL_SRC_ALPHA
  | GL_ONE_MINUS_SRC_ALPHA
deriving DecidableEq, Repr

/-- The buffer bits `main` passes to `glClear`. -/
inductive ClearBit where
  | GL_COLOR_BUFFER_BIT
  | GL_DEPTH_BUFFER_BIT
deriving DecidableEq, Repr

/-- The callbacks `main` registers. -/
inductive Callback where
  | error_callback
  | key_callback
deriving DecidableEq, Repr

/-- One call made by `main`, in source order of first appearance. -/
inductive Op where
  | glfwSetErrorCallback (cb : Callback)
  | glfwInit
  | glfwCreateWindow (width height : Int) (title : String)
  | glfwTerminate
  | glfwMakeContextCurrent
  | glewInit
  | newTextureManager
  | newGLSLProgram
  | compileShaderFromFile (fileName : String) (type : GLSLShaderType)
  | bindAttribLocation (location : Nat) (name : String)
  | link
  | use
  | newMesh
  | glfwSetKeyCallback (cb : Callback)
  | glEnable (cap : GLenum)
  | glBlendFunc (sfactor dfactor : GLenum)
  | glPrimitiveRestartIndex (index : Nat)
  | glfwGetTime
  | meshSetPosition (p : Vec3)
  | glfwWindowShouldClose
  | glfwGetFramebufferSize
  | glViewport (x y width height : Int)
  | glClear (mask : List ClearBit)
  | setUniform (name : String) (value : UniformValue)
  | meshUpdate (timePassed : FloatVal)
  | meshDraw
  | glfwSwapBuffers
  | glfwPollEvents
  | deleteMesh
  | deleteTextureManager
  | glfwDestroyWindow
deriving DecidableEq

/-- What the environment answers.  Calls that are made repeatedly are
answered per call number, counted from zero. -/
structure Env where
  /-- Result of `glfwInit()`. -/
  glfwInit : Bool
  /-- Whether `glfwCreateWindow` returns a non-null window. -/
  glfwCreateWindow : Bool
  /-- Whether `glewInit()` reports success. -/
  glewInit : Bool
  /-- Whether the call of `compileShaderFromFile` on the given file succeeds. -/
  compileShaderFromFile : String → Bool
  /-- Whether `shaders.link()` succeeds. -/
  link : Bool
  /-- Whether the `Mesh` constructor manages to build its mesh. -/
  newMesh : Bool
  /-- Result of the `k`-th call of `glfwWindowShouldClose`. -/
  glfwWindowShouldClose : Nat → Bool
  /-- The `(width, height)` stored by the `k`-th call of
  `glfwGetFramebufferSize`. -/
  glfwGetFramebufferSize : Nat → Int × Int
  /-- Result of the `k`-th call of `glfwGetTime`, a finite `double` given by
  its value; call `0` is the one before the loop, call `k + 1` the one in
  frame `k`. -/
  glfwGetTime : Nat → ℚ

/-- The local variables of `main` declared before the loop and alive in it.
`timePassed` is declared without an initial value. -/
structure Locals where
  viewMatrix : Mat4
  projectionMatrix : Mat4
  angle : ℚ
  currentTime : ℚ
  previousTime : ℚ
  timePassed : Option FloatVal
  cameraFocusPosition : Vec3
deriving DecidableEq

/-- Outcome of a run: the calls made so far and the exit status, `none` when
the frame loop is still running after the allotted number of iterations. -/
structure Run where
  trace : List Op
  status : Option ExitStatus
deriving DecidableEq

/-- Outcome of the `while` loop. -/
structure LoopResult where
  locals : Locals
  trace : List Op
  finished : Bool

/-! ## The program -/

/-- Lines 28-30: the calls up to and including `glfwInit`. -/
def initOps : List Op :=
  [.glfwSetErrorCallback .error_callback, .glfwInit]

/-- Line 33. -/
def createWindowOps : List Op :=
  [.glfwCreateWindow 1000 800 "Blender Object"]

/-- Lines 40-92: everything between window creation and the loop. -/
def setupOps (cameraFocusPosition : Vec3) : List Op :=
  [ .glfwMakeContextCurrent,
    .glewInit,
    .newTextureManager,
    .newGLSLProgram,
    .compileShaderFromFile "vertex.glsl" .VERTEX,
    .compileShaderFromFile "fragment.glsl" .FRAGMENT,
    .bindAttribLocation 0 "position",
    .bindAttribLocation 1 "normal",
    .bindAttribLocation 2 "texUV",
    .link,
    .use,
    .newMesh,
    .glfwSetKeyCallback .key_callback,
    .glEnable .GL_BLEND,
    .glEnable .GL_DEPTH_TEST,
    .glEnable .GL_CULL_FACE,
    .glBlendFunc .GL_SRC_ALPHA .GL_ONE_MINUS_SRC_ALPHA,
    .glEnable .GL_PRIMITIVE_RESTART,
    .glPrimitiveRestartIndex 0xFFFF,
    .glfwGetTime,
    .meshSetPosition cameraFocusPosition ]

/-- Lines 78-91: the locals as they stand when the loop is entered. -/
def initialLocals (env : Env) : Locals :=
  let currentTime := env.glfwGetTime 0
  { viewMatrix := .default
    projectionMatrix := .default
    angle := 0
    currentTime := currentTime
    previousTime := currentTime
    timePassed := none
    cameraFocusPosition := ⟨0, 1 / 2, -5⟩ }

/-- Lines 96-134: the body of the loop in frame `i`, started with locals `s`. -/
def frame (env : Env) (i : Nat) (s : Locals) : Locals × List Op :=
  let width := (env.glfwGetFramebufferSize i).1
  let height := (env.glfwGetFramebufferSize i).2
  let ratio := FloatVal.intDivFloat width height
  let projectionMatrix :=
    Mat4.perspective (binary32.round 45) ratio (binary32.round (1 / 10)) (binary32.round 10000)
  let viewMatrix := Mat4.lookAt ⟨-1, 1, 1⟩ s.cameraFocusPosition ⟨0, 1, 0⟩
  let currentTime := env.glfwGetTime (i + 1)
  let timePassed := binary64.round (currentTime - s.previousTime)
  let previousTime := if timePassed.isPositive then currentTime else s.previousTime
  ({ s with
      viewMatrix := viewMatrix
      projectionMatrix := projectionMatrix
      currentTime := currentTime
      previousTime := previousTime
      timePassed := some timePassed },
   [ .glfwGetFramebufferSize,
     .glViewport 0 0 width height,
     .glClear [.GL_COLOR_BUFFER_BIT, .GL_DEPTH_BUFFER_BIT],
     .setUniform "projectionMatrix" (.mat4 projectionMatrix),
     .setUniform "viewMatrix" (.mat4 viewMatrix),
     .setUniform "lightPos" (.vec3 ⟨-1, -1, 10⟩),
     .glfwGetTime,
     .meshUpdate timePassed,
     .meshDraw,
     .glfwSwapBuffers,
     .glfwPollEvents ])

/-- Lines 94-135: the `while` loop from frame `i` on, for at most `fuel`
evaluations of its condition. -/
def whileLoop (env : Env) : Nat → Nat → Locals → LoopResult
  | 0, _, s => ⟨s, [], false⟩
  | fuel + 1, i, s =>
    if env.glfwWindowShouldClose i then
      ⟨s, [.glfwWindowShouldClose], true⟩
    else
      let r := whileLoop env fuel (i + 1) (frame env i s).1
      ⟨r.locals, .glfwWindowShouldClose :: (frame env i s).2 ++ r.trace, r.finished⟩

/-- Lines 137-142: the calls after the loop. -/
def teardownOps : List Op :=
  [.deleteMesh, .deleteTextureManager, .glfwDestroyWindow, .glfwTerminate]

/-- The function `main`, lines 24-144. -/
def main (fuel : Nat) (env : Env) : Run :=
  if !env.glfwInit then
    ⟨initOps, some .EXIT_FAILURE⟩
  else if !env.glfwCreateWindow then
    ⟨initOps ++ createWindowOps ++ [.glfwTerminate], some .EXIT_FAILURE⟩
  else
    let s := initialLocals env
    let r := whileLoop env fuel 0 s
    let trace := initOps ++ createWindowOps ++ setupOps s.cameraFocusPosition ++ r.trace
    if r.finished then
      ⟨trace ++ teardownOps, some .EXIT_SUCCESS⟩
    else
      ⟨trace, none⟩

/-! ## Unrolling the loop -/

/-- The calls of `n` consecutive frames, frame `i` first, started with
locals `s`; each frame is preceded by the loop test that let it run. -/
def framesOps (env : Env) : Nat → Nat → Locals → List Op
  | 0, _, _ => []
  | n + 1, i, s =>
    .glfwWindowShouldClose :: (frame env i s).2 ++ framesOps env n (i + 1) (frame env i s).1

/-- The locals after `n` consecutive frames, frame `i` first, started with
locals `s`. -/
def framesLocals (env : Env) : Nat → Nat → Locals → Locals
  | 0, _, s => s
  | n + 1, i, s => framesLocals env n (i + 1) (frame env i s).1

/-- The locals of `main` at the end of frame `k` (counted from one), that is
after `k` complete frames. -/
def localsAfter (env : Env) (k : Nat) : Locals :=
  framesLocals env k 0 (initialLocals env)

/-! ## Observers on calls -/

/-- The file path a call hands to a file-reading operation, if it is one. -/
def Op.filePath? : Op → Option String
  | .compileShaderFromFile fileName _ => some fileName
  | _ => none

/-- Calls of `compileShaderFromFile`. -/
def Op.isCompile : Op → Bool
  | .compileShaderFromFile _ _ => true
  | _ => false

/-- The member calls on the shader program and the creation of the mesh. -/
def Op.isShaderStep : Op → Bool
  | .compileShaderFromFile _ _ => true
  | .bindAttribLocation _ _ => true
  | .link => true
  | .use => true
  | .newMesh => true
  | .setUniform _ _ => true
  | _ => false

/-- Calls of `setUniform`. -/
def Op.isSetUniform : Op → Bool
  | .setUniform _ _ => true
  | _ => false

/-- The calls that mark the phases of a run: shader link and use, mesh
creation, the five frame steps, and teardown. -/
def Op.isPhaseStep : Op → Bool
  | .link => true
  | .use => true
  | .newMesh => true
  | .glClear _ => true
  | .meshUpdate _ => true
  | .meshDraw => true
  | .glfwSwapBuffers => true
  | .glfwPollEvents => true
  | .deleteMesh => true
  | .deleteTextureManager => true
  | .glfwDestroyWindow => true
  | .glfwTerminate => true
  | _ => false

/-- Calls of `glfwWindowShouldClose`. -/
def Op.isLoopTest : Op → Bool
  | .glfwWindowShouldClose => true
  | _ => false

/-- The five frame steps of one frame whose `Update` receives `dt`. -/
def frameSteps (dt : FloatVal) : List Op :=
  [ .glClear [.GL_COLOR_BUFFER_BIT, .GL_DEPTH_BUFFER_BIT],
    .meshUpdate dt,
    .meshDraw,
    .glfwSwapBuffers,
    .glfwPollEvents ]

/-- The matrix a call sets the `viewMatrix` uniform to, if it does. -/
def Op.viewMatrix? : Op → Option Mat4
  | .setUniform name (.mat4 m) => if name = "viewMatrix" then some m else none
  | _ => none

/-- The value a call sets the `lightPos` uniform to, if it does. -/
def Op.lightPos? : Op → Option UniformValue
  | .setUniform name v => if name = "lightPos" then some v else none
  | _ => none

/-- The value a call assigns to `mesh->position`, if it does. -/
def Op.meshPosition? : Op → Option Vec3
  | .meshSetPosition p => some p
  | _ => none

/-- Calls of `glViewport` and settings of the `projectionMatrix` uniform. -/
def Op.isViewportOrProjection : Op → Bool
  | .glViewport _ _ _ _ => true
  | .setUniform name _ => decide (name = "projectionMatrix")
  | _ => false

/-- The argument of a call of `mesh->Update`, if it is one. -/
def Op.updateArg? : Op → Option FloatVal
  | .meshUpdate dt => some dt
  | _ => none

/-- The finite number of seconds a call passes to `mesh->Update`, if it is
such a call. -/
def Op.updateSeconds? : Op → Option ℚ
  | .meshUpdate dt => dt.toRat?
  | _ => none

/-! ## Sample environments -/

/-- An environment in which everything succeeds and the window is closed
after two frames; the window is resized between the frames and the clock
advances by 1/64 per reading. -/
def twoFrameEnv : Env where
  glfwInit := true
  glfwCreateWindow := true
  glewInit := true
  compileShaderFromFile := fun _ => true
  link := true
  newMesh := true
  glfwWindowShouldClose := fun k => decide (2 ≤ k)
  glfwGetFramebufferSize := fun k => if k = 0 then (1000, 800) else (1200, 800)
  glfwGetTime := fun k => (k : ℚ) / 64

/-- The environment `twoFrameEnv` with every helper failing: GLEW does not
initialise, no shader compiles, the program does not link, the mesh is not
built. -/
def brokenHelpersEnv : Env :=
  { twoFrameEnv with
    glewInit := false
    compileShaderFromFile := fun _ => false
    link := false
    newMesh := false }

/-- An environment in which everything succeeds and the window, of size
1366 x 768, is closed after one frame. -/
def laptopEnv : Env :=
  { twoFrameEnv with
    glfwWindowShouldClose := fun k => decide (1 ≤ k)
    glfwGetFramebufferSize := fun _ => (1366, 768) }

/-- An environment in which `glfwInit` fails. -/
def noInitEnv : Env := { twoFrameEnv with glfwInit := false }

/-- An environment in which `glfwCreateWindow` returns a null window. -/
def nullWindowEnv : Env := { twoFrameEnv with glfwCreateWindow := false }

/-! ## Lemmas on the loop -/

theorem whileLoop_trace_forall (env : Env) (I : Locals → Prop) (P : Op → Prop)
    (hI : ∀ i s, I s → I (frame env i s).1)
    (hc : P .glfwWindowShouldClose)
    (hf : ∀ i s, I s → ∀ op ∈ (frame env i s).2, P op) :
    ∀ fuel i s, I s → ∀ op ∈ (whileLoop env fuel i s).trace, P op := by
  intro fuel
  induction fuel with
  | zero => intro i s _ op hop; simp [whileLoop] at hop
  | succ fuel ih =>
    intro i s hs op hop
    unfold whileLoop at hop
    split at hop
    · simp at hop; subst hop; exact hc
    · simp only [List.cons_append, List.mem_cons, List.mem_append] at hop
      rcases hop with h | h | h
      · subst h; exact hc
      · exact hf i s hs op h
      · exact ih (i + 1) _ (hI i s hs) op h

theorem whileLoop_of_closes_at (env : Env) :
    ∀ (n fuel i : Nat) (s : Locals),
      (∀ k, k < n → env.glfwWindowShouldClose (i + k) = false) →
      env.glfwWindowShouldClose (i + n) = true → n < fuel →
      (whileLoop env fuel i s).locals = framesLocals env n i s ∧
      (whileLoop env fuel i s).trace = framesOps env n i s ++ [.glfwWindowShouldClose] ∧
      (whileLoop env fuel i s).finished = true := by
  intro n
  induction n with
  | zero =>
    intro fuel i s _ hclose hfuel
    obtain ⟨f, rfl⟩ : ∃ f, fuel = f + 1 := ⟨fuel - 1, by omega⟩
    simp at hclose
    simp [whileLoop, hclose, framesLocals, framesOps]
  | succ n ih =>
    intro fuel i s hopen hclose hfuel
    obtain ⟨f, rfl⟩ : ∃ f, fuel = f + 1 := ⟨fuel - 1, by omega⟩
    have h0 : env.glfwWindowShouldClose i = false := by simpa using hopen 0 (by omega)
    have hopen1 : ∀ k, k < n → env.glfwWindowShouldClose (i + 1 + k) = false := by
      intro k hk
      have := hopen (k + 1) (by omega)
      rwa [show i + (k + 1) = i + 1 + k by omega] at this
    have hclose1 : env.glfwWindowShouldClose (i + 1 + n) = true := by
      rwa [show i + (n + 1) = i + 1 + n by omega] at hclose
    obtain ⟨h1, h2, h3⟩ := ih f (i + 1) (frame env i s).1 hopen1 hclose1 (by omega)
    simp [whileLoop, h0, framesLocals, framesOps, h1, h2, h3]

theorem main_trace_of_window (fuel : Nat) (env : Env)
    (hInit : env.glfwInit = true) (hWin : env.glfwCreateWindow = true) :
    (main fuel env).trace =
      initOps ++ createWindowOps ++ setupOps ⟨0, 1 / 2, -5⟩ ++
        (whileLoop env fuel 0 (initialLocals env)).trace ++
        (if (whileLoop env fuel 0 (initialLocals env)).finished then teardownOps else []) := by
  simp only [main, hInit, hWin, Bool.not_true, Bool.false_eq_true, if_false]
  split <;> simp [initialLocals]

theorem main_of_closes_at (n fuel : Nat) (env : Env)
    (hInit : env.glfwInit = true) (hWin : env.glfwCreateWindow = true)
    (hOpen : ∀ k, k < n → env.glfwWindowShouldClose k = false)
    (hClose : env.glfwWindowShouldClose n = true) (hFuel : n < fuel) :
    main fuel env =
      ⟨initOps ++ createWindowOps ++ setupOps ⟨0, 1 / 2, -5⟩ ++
        (framesOps env n 0 (initialLocals env) ++ [.glfwWindowShouldClose]) ++ teardownOps,
       some .EXIT_SUCCESS⟩ := by
  obtain ⟨_, h2, h3⟩ := whileLoop_of_closes_at env n fuel 0 (initialLocals env)
    (by simpa using hOpen) (by simpa using hClose) hFuel
  simp only [main, hInit, hWin, Bool.not_true, Bool.false_eq_true, if_false, h2, h3, if_true]
  simp [initialLocals]

theorem frame_congr (e₁ e₂ : Env)
    (hSize : e₁.glfwGetFramebufferSize = e₂.glfwGetFramebufferSize)
    (hTime : e₁.glfwGetTime = e₂.glfwGetTime) (i : Nat) (s : Locals) :
    frame e₁ i s = frame e₂ i s := by
  simp [frame, hSize, hTime]

theorem whileLoop_congr (e₁ e₂ : Env)
    (hClose : e₁.glfwWindowShouldClose = e₂.glfwWindowShouldClose)
    (hSize : e₁.glfwGetFramebufferSize = e₂.glfwGetFramebufferSize)
    (hTime : e₁.glfwGetTime = e₂.glfwGetTime) :
    ∀ fuel i s, whileLoop e₁ fuel i s = whileLoop e₂ fuel i s := by
  intro fuel
  induction fuel with
  | zero => intro i s; rfl
  | succ fuel ih =>
    intro i s
    simp only [whileLoop, hClose, frame_congr e₁ e₂ hSize hTime, ih]

/-- The loop runs the first `n` frames when the first `n` loop tests answer
false and the fuel allows for them. -/
theorem whileLoop_of_open (env : Env) :
    ∀ (n fuel i : Nat) (s : Locals),
      (∀ k, k < n → env.glfwWindowShouldClose (i + k) = false) →
      (whileLoop env (n + fuel) i s).trace =
        framesOps env n i s ++ (whileLoop env fuel (i + n) (framesLocals env n i s)).trace ∧
      (whileLoop env (n + fuel) i s).finished =
        (whileLoop env fuel (i + n) (framesLocals env n i s)).finished := by
  intro n
  induction n with
  | zero => intro fuel i s _; simp [framesOps, framesLocals]
  | succ n ih =>
    intro fuel i s hopen
    have h0 : env.glfwWindowShouldClose i = false := by simpa using hopen 0 (by omega)
    have hopen1 : ∀ k, k < n → env.glfwWindowShouldClose (i + 1 + k) = false := by
      intro k hk
      have := hopen (k + 1) (by omega)
      rwa [show i + (k + 1) = i + 1 + k by omega] at this
    obtain ⟨h1, h2⟩ := ih fuel (i + 1) (frame env i s).1 hopen1
    rw [show n + 1 + fuel = (n + fuel) + 1 by omega, show i + (n + 1) = i + 1 + n by omega]
    simp [whileLoop, h0, framesLocals, framesOps, h1, h2]

/-! ## Lemmas on rounding -/

theorem round_pos_eq (f : FloatFormat) (x : ℚ) (a b m : Nat) (u : Int) (v : ℚ)
    (hx : 0 < x) (ha : x.num = a) (hb : x.den = b)
    (hm : f.significand a b = m) (hu : f.ulpExponent a b = u)
    (hv : (m : ℚ) * 2 ^ u = v) (hmax : v < 2 ^ (f.emax + 1)) :
    f.round x = .finite v := by
  have hx0 : x ≠ 0 := ne_of_gt hx
  have hnot : ¬ x < 0 := not_lt.mpr hx.le
  simp only [FloatFormat.round, hx0, if_false, ha, hb, Int.natAbs_ofNat, hm, hu, hv,
    not_le.mpr hmax, hnot]

theorem round_neg (f : FloatFormat) (x v : ℚ) (hx : 0 < x) (h : f.round x = .finite v) :
    f.round (-x) = .finite (-v) := by
  have hx0 : x ≠ 0 := ne_of_gt hx
  have hnot : ¬ x < 0 := not_lt.mpr hx.le
  have hneg : -x < 0 := by linarith
  have hneg0 : -x ≠ 0 := by linarith
  simp only [FloatFormat.round, hx0, if_false, hnot] at h
  simp only [FloatFormat.round, neg_eq_zero, hx0, if_false, Rat.neg_num, Int.natAbs_neg, Rat.neg_den, Left.neg_neg_iff, hx, if_true]
  split at h
  · simp at h
  · rename_i hlt
    simp only [hlt, if_false]
    simp only [FloatVal.finite.injEq] at h
    rw [h]

theorem log2Fuel_spec : ∀ (fuel n : Nat), n ≤ fuel → 0 < n →
    2 ^ log2Fuel fuel n ≤ n ∧ n < 2 ^ (log2Fuel fuel n + 1) := by
  intro fuel
  induction fuel with
  | zero => intro n h1 h2; omega
  | succ fuel ih =>
    intro n hn hpos
    unfold log2Fuel
    split
    · constructor <;> simp <;> omega
    · rename_i h2
      have hle : n / 2 ≤ fuel := by omega
      have hp : 0 < n / 2 := by omega
      obtain ⟨h3, h4⟩ := ih (n / 2) hle hp
      constructor
      · rw [pow_succ]; omega
      · rw [pow_succ]; omega

theorem floorLog2_spec (n : Nat) (h : 0 < n) :
    2 ^ floorLog2 n ≤ n ∧ n < 2 ^ (floorLog2 n + 1) :=
  log2Fuel_spec n n (Nat.le_refl n) h

theorem floorLog2_le_of_le_pow (n k : Nat) (h : 0 < n) (hk : n ≤ 2 ^ k) : floorLog2 n ≤ k := by
  by_contra hc
  have h1 := (floorLog2_spec n h).1
  have : 2 ^ (k + 1) ≤ 2 ^ floorLog2 n := Nat.pow_le_pow_right (by norm_num) (by omega)
  have : 2 ^ k < 2 ^ (k + 1) := Nat.pow_lt_pow_right (by norm_num) (by omega)
  omega

theorem roundHalfEven_one (n : Nat) : roundHalfEven n 1 = n := by
  simp [roundHalfEven, Nat.mod_one]

theorem round_natCast_of_le (a : Nat) (ha : 0 < a) (hle : a ≤ 2 ^ 24) :
    binary32.round (a : ℚ) = .finite (a : ℚ) := by
  have hL := floorLog2_le_of_le_pow a 24 ha hle
  have hspec := floorLog2_spec a ha
  have h1 : floorLog2 1 = 0 := by decide
  have hq : floorLog2Quot a 1 = (floorLog2 a : Int) := by
    simp [floorLog2Quot, h1, hspec.1]
  have hxnum : ((a : ℚ)).num = (a : Int) := Rat.num_natCast a
  have hxden : ((a : ℚ)).den = 1 := Rat.den_natCast a
  have hxpos : (0 : ℚ) < a := by exact_mod_cast ha
  have hmax : (a : ℚ) < 2 ^ (binary32.emax + 1) := by
    have : (a : ℚ) ≤ 2 ^ 24 := by exact_mod_cast hle
    have h2 : (2 : ℚ) ^ (24 : ℕ) < 2 ^ (binary32.emax + 1) := by norm_num [binary32]
    linarith
  by_cases h24 : floorLog2 a = 24
  · have ha24 : a = 2 ^ 24 := by
      have := hspec.1
      rw [h24] at this
      omega
    subst ha24
    exact round_pos_eq binary32 _ (2 ^ 24) 1 (2 ^ 23) 1 _ (by norm_num) (by norm_num)
      (by norm_num) (by decide) (by decide) (by norm_num) (by norm_num [binary32])
  · have hlt : floorLog2 a ≤ 23 := by omega
    have hu : binary32.ulpExponent a 1 = (floorLog2 a : Int) - 23 := by
      simp only [FloatFormat.ulpExponent, hq, binary32]
      have : ((24 : ℕ) : ℤ) - 1 = 23 := by norm_num
      rw [this]
      omega
    have hm : binary32.significand a 1 = a * 2 ^ (23 - floorLog2 a) := by
      unfold FloatFormat.significand
      rw [hu]
      by_cases h23 : floorLog2 a = 23
      · simp [h23, roundHalfEven_one]
      · have hneg : ¬ (0 : Int) ≤ (floorLog2 a : Int) - 23 := by omega
        rw [if_neg hneg, roundHalfEven_one]
        congr 2
        omega
    refine round_pos_eq binary32 _ a 1 _ _ _ hxpos hxnum hxden hm hu ?_ hmax
    have hcast : ((floorLog2 a : Int) - 23) = -((23 - floorLog2 a : ℕ) : Int) := by omega
    rw [hcast, zpow_neg, zpow_natCast]
    push_cast
    field_simp

theorem round_intCast_of_natAbs_le (i : Int) (hle : i.natAbs ≤ 2 ^ 24) :
    binary32.round (i : ℚ) = .finite (i : ℚ) := by
  rcases lt_trichotomy i 0 with h | h | h
  · obtain ⟨a, rfl⟩ : ∃ a : Nat, i = -(a : Int) := ⟨i.natAbs, by omega⟩
    have ha : 0 < a := by omega
    have := round_neg binary32 (a : ℚ) a (by exact_mod_cast ha)
      (round_natCast_of_le a ha (by simpa using hle))
    simpa using this
  · subst h; simp [FloatFormat.round]
  · obtain ⟨a, rfl⟩ : ∃ a : Nat, i = (a : Int) := ⟨i.natAbs, by omega⟩
    have ha : 0 < a := by omega
    simpa using round_natCast_of_le a ha (by simpa using hle)

/-- The literal `45.0f`. -/
theorem float32_45 : binary32.round 45 = .finite 45 :=
  round_pos_eq binary32 _ 45 1 (45 * 2 ^ 18) (-18) _ (by norm_num) (by norm_num) (by norm_num)
    (by decide) (by decide) (by norm_num) (by norm_num [binary32])

/-- The literal `0.1f`. -/
theorem float32_tenth : binary32.round (1 / 10) = .finite (13421773 / 134217728) :=
  round_pos_eq binary32 _ 1 10 13421773 (-27) _ (by norm_num) (by norm_num) (by norm_num)
    (by decide) (by decide) (by norm_num) (by norm_num [binary32])

/-- The literal `10000.f`. -/
theorem float32_10000 : binary32.round 10000 = .finite 10000 :=
  round_pos_eq binary32 _ 10000 1 (10000 * 2 ^ 10) (-10) _ (by norm_num) (by norm_num)
    (by norm_num) (by decide) (by decide) (by norm_num) (by norm_num [binary32])

/-- A `double` subtraction that rounds: for the doubles nearest to `0.05`
and `0.01` the computed difference is not the exact one. -/
theorem double_subtraction_rounds :
    binary64.round
        (3602879701896397 / 72057594037927936 - 5764607523034235 / 576460752303423488) =
      .finite (5764607523034235 / 144115188075855872) ∧
    (5764607523034235 / 144115188075855872 : ℚ) ≠
      3602879701896397 / 72057594037927936 - 5764607523034235 / 576460752303423488 := by
  refine ⟨?_, by norm_num⟩
  have hx : (3602879701896397 / 72057594037927936 - 5764607523034235 / 576460752303423488 : ℚ)
      = 23058430092136941 / 576460752303423488 := by norm_num
  rw [hx]
  exact round_pos_eq binary64 _ 23058430092136941 576460752303423488 5764607523034235 (-57) _
    (by norm_num) (by norm_num) (by norm_num) (by decide) (by decide) (by norm_num)
    (by norm_num [binary64])

/-- With both conversions exact and a nonzero divisor, `width / (float)height`
is the quotient rounded to binary32. -/
theorem intDivFloat_of_exact (width height : Int) (hh : height ≠ 0)
    (hW : binary32.round (width : ℚ) = .finite (width : ℚ))
    (hH : binary32.round (height : ℚ) = .finite (height : ℚ)) :
    FloatVal.intDivFloat width height = binary32.round ((width : ℚ) / (height : ℚ)) := by
  have hq : (height : ℚ) ≠ 0 := by exact_mod_cast hh
  simp [FloatVal.intDivFloat, float32OfInt, hW, hH, FloatVal.div32, hq]

/-! ## Lemmas on unrolled frames -/

/-- The calls of one frame, with the three literals of line 107 evaluated. -/
theorem frame_ops (env : Env) (i : Nat) (s : Locals) :
    (frame env i s).2 =
      [ .glfwGetFramebufferSize,
        .glViewport 0 0 (env.glfwGetFramebufferSize i).1 (env.glfwGetFramebufferSize i).2,
        .glClear [.GL_COLOR_BUFFER_BIT, .GL_DEPTH_BUFFER_BIT],
        .setUniform "projectionMatrix"
          (.mat4 (.perspective (.finite 45)
            (FloatVal.intDivFloat (env.glfwGetFramebufferSize i).1
              (env.glfwGetFramebufferSize i).2)
            (.finite (13421773 / 134217728)) (.finite 10000))),
        .setUniform "viewMatrix" (.mat4 (.lookAt ⟨-1, 1, 1⟩ s.cameraFocusPosition ⟨0, 1, 0⟩)),
        .setUniform "lightPos" (.vec3 ⟨-1, -1, 10⟩),
        .glfwGetTime,
        .meshUpdate (binary64.round (env.glfwGetTime (i + 1) - s.previousTime)),
        .meshDraw,
        .glfwSwapBuffers,
        .glfwPollEvents ] := by
  simp only [frame, float32_45, float32_tenth, float32_10000]

theorem framesLocals_cameraFocusPosition (env : Env) :
    ∀ (n i : Nat) (s : Locals),
      (framesLocals env n i s).cameraFocusPosition = s.cameraFocusPosition := by
  intro n
  induction n with
  | zero => intro i s; rfl
  | succ n ih => intro i s; simp [framesLocals, ih, frame]

theorem framesOps_phaseSteps (env : Env) :
    ∀ (n i : Nat) (s : Locals),
      (framesOps env n i s).filter Op.isPhaseStep =
        ((framesOps env n i s).filterMap Op.updateArg?).flatMap frameSteps ∧
      ((framesOps env n i s).filterMap Op.updateArg?).length = n ∧
      ((framesOps env n i s).filter Op.isLoopTest).length = n := by
  intro n
  induction n with
  | zero => intro i s; simp [framesOps]
  | succ n ih =>
    intro i s
    obtain ⟨h1, h2, h3⟩ := ih (i + 1) (frame env i s).1
    refine ⟨?_, ?_, ?_⟩
    · simp only [framesOps, List.filter_cons, List.filter_append, List.filterMap_cons,
        List.filterMap_append, h1]
      simp [frame, Op.isPhaseStep, Op.updateArg?, frameSteps]
    · simp only [framesOps, List.filterMap_cons, List.filterMap_append, List.length_append, h2]
      simp [frame, Op.updateArg?]
      omega
    · simp only [framesOps, List.filter_cons, List.filter_append, List.length_append, h3]
      simp [frame, Op.isLoopTest]
      omega

theorem framesOps_camera (env : Env) :
    ∀ (n i : Nat) (s : Locals),
      (framesOps env n i s).filterMap Op.viewMatrix? =
        List.replicate n (.lookAt ⟨-1, 1, 1⟩ s.cameraFocusPosition ⟨0, 1, 0⟩) ∧
      (framesOps env n i s).filterMap Op.lightPos? =
        List.replicate n (.vec3 ⟨-1, -1, 10⟩) := by
  intro n
  induction n with
  | zero => intro i s; simp [framesOps]
  | succ n ih =>
    intro i s
    obtain ⟨h1, h2⟩ := ih (i + 1) (frame env i s).1
    have hc : (frame env i s).1.cameraFocusPosition = s.cameraFocusPosition := rfl
    rw [hc] at h1
    refine ⟨?_, ?_⟩
    · simp only [framesOps, List.filterMap_cons, List.filterMap_append, h1, List.replicate_succ]
      simp [frame, Op.viewMatrix?]
    · simp only [framesOps, List.filterMap_cons, List.filterMap_append, h2, List.replicate_succ]
      simp [frame, Op.lightPos?]

theorem framesOps_viewportProjection (env : Env) :
    ∀ (n i : Nat) (s : Locals),
      (framesOps env n i s).filter Op.isViewportOrProjection =
        (List.range' i n).flatMap fun k =>
          [ .glViewport 0 0 (env.glfwGetFramebufferSize k).1 (env.glfwGetFramebufferSize k).2,
            .setUniform "projectionMatrix"
              (.mat4 (.perspective (.finite 45)
                (FloatVal.intDivFloat (env.glfwGetFramebufferSize k).1
                  (env.glfwGetFramebufferSize k).2)
                (.finite (13421773 / 134217728)) (.finite 10000))) ] := by
  intro n
  induction n with
  | zero => intro i s; simp [framesOps]
  | succ n ih =>
    intro i s
    simp only [framesOps, List.filter_cons, List.filter_append, ih (i + 1) (frame env i s).1,
      List.range'_succ, List.flatMap_cons, frame_ops]
    simp [Op.isViewportOrProjection]

theorem framesOps_timer (env : Env) :
    ∀ (n i : Nat) (s : Locals),
      s.previousTime = env.glfwGetTime i →
      (∀ k, i ≤ k → k < i + n → env.glfwGetTime k ≤ env.glfwGetTime (k + 1)) →
      (∀ k, i ≤ k → k < i + n →
        binary64.round (env.glfwGetTime (k + 1) - env.glfwGetTime k) =
          .finite (env.glfwGetTime (k + 1) - env.glfwGetTime k)) →
      (framesOps env n i s).filterMap Op.updateArg? =
        (List.range' i n).map
          (fun k => FloatVal.finite (env.glfwGetTime (k + 1) - env.glfwGetTime k)) ∧
      (framesOps env n i s).filterMap Op.updateSeconds? =
        (List.range' i n).map (fun k => env.glfwGetTime (k + 1) - env.glfwGetTime k) ∧
      (framesLocals env n i s).previousTime = env.glfwGetTime (i + n) := by
  intro n
  induction n with
  | zero => intro i s hs _ _; simp [framesOps, framesLocals, hs]
  | succ n ih =>
    intro i s hs hMono hExact
    have hi := hMono i (Nat.le_refl i) (by omega)
    have he := hExact i (Nat.le_refl i) (by omega)
    have hprev : (frame env i s).1.previousTime = env.glfwGetTime (i + 1) := by
      simp only [frame, hs, he, FloatVal.isPositive]
      split
      · rfl
      · rename_i hneg
        have : ¬ (0 < env.glfwGetTime (i + 1) - env.glfwGetTime i) := by simpa using hneg
        linarith
    obtain ⟨h1, h2, h3⟩ := ih (i + 1) (frame env i s).1 hprev
      (fun k hk1 hk2 => hMono k (by omega) (by omega))
      (fun k hk1 hk2 => hExact k (by omega) (by omega))
    refine ⟨?_, ?_, ?_⟩
    · simp only [framesOps, List.filterMap_cons, List.filterMap_append, h1, List.range'_succ,
        List.map_cons]
      simp [frame, Op.updateArg?, hs, he]
    · simp only [framesOps, List.filterMap_cons, List.filterMap_append, h2, List.range'_succ,
        List.map_cons]
      simp [frame, Op.updateSeconds?, FloatVal.toRat?, hs, he]
    · simp only [framesLocals, h3]
      congr 1
      omega

theorem sum_differences (t : Nat → ℚ) (n : Nat) :
    ((List.range n).map (fun k => t (k + 1) - t k)).sum = t n - t 0 := by
  induction n with
  | zero => simp
  | succ n ih => rw [List.sum_range_succ, ih]; ring

/-- The viewport and projection calls of a run of `n` frames. -/
theorem main_viewportProjection_trace (n fuel : Nat) (env : Env)
    (hInit : env.glfwInit = true) (hWin : env.glfwCreateWindow = true)
    (hOpen : ∀ k, k < n → env.glfwWindowShouldClose k = false)
    (hClose : env.glfwWindowShouldClose n = true) (hFuel : n < fuel) :
    (main fuel env).trace.filter Op.isViewportOrProjection =
      ((List.range n).flatMap fun k =>
        [ .glViewport 0 0 (env.glfwGetFramebufferSize k).1 (env.glfwGetFramebufferSize k).2,
          .setUniform "projectionMatrix"
            (.mat4 (.perspective (.finite 45)
              (FloatVal.intDivFloat (env.glfwGetFramebufferSize k).1
                (env.glfwGetFramebufferSize k).2)
              (.finite (13421773 / 134217728)) (.finite 10000))) ]) := by
  have e1 : initOps.filter Op.isViewportOrProjection = [] := rfl
  have e2 : createWindowOps.filter Op.isViewportOrProjection = [] := rfl
  have e3 : (setupOps ⟨0, 1 / 2, -5⟩).filter Op.isViewportOrProjection = [] := rfl
  have e4 : teardownOps.filter Op.isViewportOrProjection = [] := rfl
  have e5 : List.filter Op.isViewportOrProjection [Op.glfwWindowShouldClose] = [] := rfl
  rw [main_of_closes_at n fuel env hInit hWin hOpen hClose hFuel]
  simp only [List.filter_append, e1, e2, e3, e4, e5,
    framesOps_viewportProjection env n 0 (initialLocals env), List.range_eq_range']
  simp

/-! ## The claims -/

/-- C1. When `glfwInit` fails, or succeeds and `glfwCreateWindow` returns a
null window, the run ends at once with `EXIT_FAILURE`: no context is made
current, no shader is compiled, no mesh is created, nothing is cleared or
drawn.  After a failed `glfwInit` the calls are just the error-callback
registration and `glfwInit`; after a null window they are those two, the
window creation and one `glfwTerminate`, which is the last call. -/
theorem main_init_failure_exits (fuel : Nat) (env : Env)
    (h : env.glfwInit = false ∨ (env.glfwInit = true ∧ env.glfwCreateWindow = false)) :
    (main fuel env).status = some .EXIT_FAILURE ∧
    Op.glfwMakeContextCurrent ∉ (main fuel env).trace ∧
    (∀ f t, Op.compileShaderFromFile f t ∉ (main fuel env).trace) ∧
    Op.newMesh ∉ (main fuel env).trace ∧
    (∀ m, Op.glClear m ∉ (main fuel env).trace) ∧
    Op.meshDraw ∉ (main fuel env).trace ∧
    (env.glfwInit = false →
      (main fuel env).trace = [.glfwSetErrorCallback .error_callback, .glfwInit]) ∧
    (env.glfwInit = true →
      (main fuel env).trace =
        [.glfwSetErrorCallback .error_callback, .glfwInit,
         .glfwCreateWindow 1000 800 "Blender Object", .glfwTerminate] ∧
      (main fuel env).trace.count .glfwTerminate = 1) := by
  rcases h with h | ⟨h, hw⟩
  · simp [main, h, initOps]
  · simp [main, h, hw, initOps, createWindowOps]

/-- Witness for C1: a failed `glfwInit`. -/
theorem main_init_failure_exits_witness :
    (main 5 noInitEnv).status = some .EXIT_FAILURE ∧
    (main 5 noInitEnv).trace = [.glfwSetErrorCallback .error_callback, .glfwInit] :=
  have h := main_init_failure_exits 5 noInitEnv (Or.inl rfl)
  ⟨h.1, h.2.2.2.2.2.2.1 rfl⟩

/-- C2. In a run that gets past window creation the file paths handed to a
file-reading operation are `vertex.glsl` and `fragment.glsl`, in this order
and nothing else; the calls of `compileShaderFromFile` are exactly two, the
first for `vertex.glsl` as a vertex shader, the second for `fragment.glsl` as
a fragment shader.  This holds for every number of frames, also while the
loop is still running. -/
theorem main_reads_two_shader_files (fuel : Nat) (env : Env)
    (hInit : env.glfwInit = true) (hWin : env.glfwCreateWindow = true) :
    (main fuel env).trace.filterMap Op.filePath? = ["vertex.glsl", "fragment.glsl"] ∧
    (main fuel env).trace.filter Op.isCompile =
      [.compileShaderFromFile "vertex.glsl" .VERTEX,
       .compileShaderFromFile "fragment.glsl" .FRAGMENT] := by
  have hloop : ∀ op ∈ (whileLoop env fuel 0 (initialLocals env)).trace,
      op.filePath? = none ∧ op.isCompile = false :=
    whileLoop_trace_forall env (fun _ => True)
      (fun op => op.filePath? = none ∧ op.isCompile = false)
      (fun _ _ _ => trivial) ⟨rfl, rfl⟩
      (by intro i s _ op hop
          simp only [frame, List.mem_cons, List.mem_singleton] at hop
          rcases hop with h | h | h | h | h | h | h | h | h | h | h | h <;>
            first
              | (subst h; exact ⟨rfl, rfl⟩)
              | simp at h)
      fuel 0 _ trivial
  have h1 : (whileLoop env fuel 0 (initialLocals env)).trace.filterMap Op.filePath? = [] :=
    List.filterMap_eq_nil_iff.mpr fun op hop => (hloop op hop).1
  have h2 : (whileLoop env fuel 0 (initialLocals env)).trace.filter Op.isCompile = [] :=
    List.filter_eq_nil_iff.mpr fun op hop => by simp [(hloop op hop).2]
  rw [main_trace_of_window fuel env hInit hWin]
  simp only [List.filterMap_append, List.filter_append, h1, h2]
  constructor <;> split <;> rfl

/-- Witness for C2: the two-frame run. -/
theorem main_reads_two_shader_files_witness :
    (main 3 twoFrameEnv).trace.filterMap Op.filePath? = ["vertex.glsl", "fragment.glsl"] :=
  (main_reads_two_shader_files 3 twoFrameEnv rfl rfl).1

/-- C5. Two runs whose environments agree on the results of `glfwInit`,
`glfwCreateWindow`, `glfwWindowShouldClose`, `glfwGetFramebufferSize` and
`glfwGetTime` make the same calls with the same arguments and end with the
same status, whatever `glewInit`, `compileShaderFromFile`, `link` and the
`Mesh` constructor report in either of them. -/
theorem main_ignores_helper_outcomes (fuel : Nat) (e₁ e₂ : Env)
    (hInit : e₁.glfwInit = e₂.glfwInit)
    (hWin : e₁.glfwCreateWindow = e₂.glfwCreateWindow)
    (hClose : e₁.glfwWindowShouldClose = e₂.glfwWindowShouldClose)
    (hSize : e₁.glfwGetFramebufferSize = e₂.glfwGetFramebufferSize)
    (hTime : e₁.glfwGetTime = e₂.glfwGetTime) :
    main fuel e₁ = main fuel e₂ := by
  simp only [main, hInit, hWin, whileLoop_congr e₁ e₂ hClose hSize hTime, initialLocals, hTime]

/-- Witness for C5: the two-frame run with all helpers succeeding and with
all helpers failing. -/
theorem main_ignores_helper_outcomes_witness :
    twoFrameEnv.glewInit ≠ brokenHelpersEnv.glewInit ∧
    twoFrameEnv.link ≠ brokenHelpersEnv.link ∧
    twoFrameEnv.newMesh ≠ brokenHelpersEnv.newMesh ∧
    twoFrameEnv.compileShaderFromFile "vertex.glsl" ≠
      brokenHelpersEnv.compileShaderFromFile "vertex.glsl" ∧
    main 3 twoFrameEnv = main 3 brokenHelpersEnv :=
  ⟨by decide, by decide, by decide, by decide,
   main_ignores_helper_outcomes 3 twoFrameEnv brokenHelpersEnv rfl rfl rfl rfl rfl⟩

/-- C6. In a run that gets past window creation, the member calls on the
shader program and the creation of the mesh come in this order: the two
compilations, the three attribute bindings (0 `position`, 1 `normal`,
2 `texUV`), `link`, `use`, the `Mesh` constructor, and after that nothing
but `setUniform` calls.  So the bindings lie between the compilations and the
one `link`, `link` precedes `use`, and `use` precedes the mesh and every
`setUniform`. -/
theorem main_shader_steps_in_order (fuel : Nat) (env : Env)
    (hInit : env.glfwInit = true) (hWin : env.glfwCreateWindow = true) :
    ∃ rest : List Op,
      (main fuel env).trace.filter Op.isShaderStep =
        [.compileShaderFromFile "vertex.glsl" .VERTEX,
         .compileShaderFromFile "fragment.glsl" .FRAGMENT,
         .bindAttribLocation 0 "position",
         .bindAttribLocation 1 "normal",
         .bindAttribLocation 2 "texUV",
         .link, .use, .newMesh] ++ rest ∧
      ∀ op ∈ rest, op.isSetUniform = true := by
  have hloop : ∀ op ∈ (whileLoop env fuel 0 (initialLocals env)).trace,
      op.isShaderStep = true → op.isSetUniform = true :=
    whileLoop_trace_forall env (fun _ => True)
      (fun op => op.isShaderStep = true → op.isSetUniform = true)
      (fun _ _ _ => trivial) (by simp [Op.isShaderStep])
      (by intro i s _ op hop
          simp only [frame, List.mem_cons, List.mem_singleton] at hop
          rcases hop with h | h | h | h | h | h | h | h | h | h | h | h <;>
            first
              | (subst h; simp [Op.isShaderStep, Op.isSetUniform])
              | simp at h)
      fuel 0 _ trivial
  refine ⟨(whileLoop env fuel 0 (initialLocals env)).trace.filter Op.isShaderStep, ?_, ?_⟩
  · have e1 : initOps.filter Op.isShaderStep = [] := rfl
    have e2 : createWindowOps.filter Op.isShaderStep = [] := rfl
    have e3 : (setupOps ⟨0, 1 / 2, -5⟩).filter Op.isShaderStep =
        [.compileShaderFromFile "vertex.glsl" .VERTEX,
         .compileShaderFromFile "fragment.glsl" .FRAGMENT,
         .bindAttribLocation 0 "position",
         .bindAttribLocation 1 "normal",
         .bindAttribLocation 2 "texUV",
         .link, .use, .newMesh] := rfl
    have e4 : teardownOps.filter Op.isShaderStep = [] := rfl
    rw [main_trace_of_window fuel env hInit hWin]
    simp only [List.filter_append, e1, e2, e3]
    split <;> simp [e4]
  · intro op hop
    rw [List.mem_filter] at hop
    exact hloop op hop.1 hop.2

/-- Witness for C6: the two-frame run. -/
theorem main_shader_steps_in_order_witness :
    ∃ rest : List Op,
      (main 3 twoFrameEnv).trace.filter Op.isShaderStep =
        [.compileShaderFromFile "vertex.glsl" .VERTEX,
         .compileShaderFromFile "fragment.glsl" .FRAGMENT,
         .bindAttribLocation 0 "position",
         .bindAttribLocation 1 "normal",
         .bindAttribLocation 2 "texUV",
         .link, .use, .newMesh] ++ rest ∧
      ∀ op ∈ rest, op.isSetUniform = true :=
  main_shader_steps_in_order 3 twoFrameEnv rfl rfl

/-- C4. When initialisation succeeds and `glfwWindowShouldClose` answers
false `n` times and then true, then with fuel for more than `n` loop tests
the run ends with `EXIT_SUCCESS`; the loop test is evaluated `n + 1` times;
the phase-marking calls are `link`, `use`, the `Mesh` constructor, then `n`
times the five steps `glClear`, `Update`, `Draw`, `glfwSwapBuffers`,
`glfwPollEvents`, then deletion of the mesh, deletion of the texture
manager, `glfwDestroyWindow` and `glfwTerminate`; and these last four calls
follow the final loop test directly and end the run. -/
theorem main_runs_frames_then_teardown (n fuel : Nat) (env : Env)
    (hInit : env.glfwInit = true) (hWin : env.glfwCreateWindow = true)
    (hOpen : ∀ k, k < n → env.glfwWindowShouldClose k = false)
    (hClose : env.glfwWindowShouldClose n = true) (hFuel : n < fuel) :
    (main fuel env).status = some .EXIT_SUCCESS ∧
    ((main fuel env).trace.filter Op.isLoopTest).length = n + 1 ∧
    (∃ dts : List FloatVal, dts.length = n ∧
      (main fuel env).trace.filter Op.isPhaseStep =
        [.link, .use, .newMesh] ++
        dts.flatMap (fun dt =>
          [ .glClear [.GL_COLOR_BUFFER_BIT, .GL_DEPTH_BUFFER_BIT],
            .meshUpdate dt, .meshDraw, .glfwSwapBuffers, .glfwPollEvents ]) ++
        [.deleteMesh, .deleteTextureManager, .glfwDestroyWindow, .glfwTerminate]) ∧
    (∃ before : List Op,
      (main fuel env).trace =
        before ++ [.glfwWindowShouldClose, .deleteMesh, .deleteTextureManager,
          .glfwDestroyWindow, .glfwTerminate]) := by
  obtain ⟨h1, h2, h3⟩ := framesOps_phaseSteps env n 0 (initialLocals env)
  have e1 : initOps.filter Op.isPhaseStep = [] := rfl
  have e2 : createWindowOps.filter Op.isPhaseStep = [] := rfl
  have e3 : (setupOps ⟨0, 1 / 2, -5⟩).filter Op.isPhaseStep = [.link, .use, .newMesh] := rfl
  have e4 : teardownOps.filter Op.isPhaseStep = teardownOps := rfl
  have e5 : List.filter Op.isPhaseStep [Op.glfwWindowShouldClose] = [] := rfl
  have l1 : initOps.filter Op.isLoopTest = [] := rfl
  have l2 : createWindowOps.filter Op.isLoopTest = [] := rfl
  have l3 : (setupOps ⟨0, 1 / 2, -5⟩).filter Op.isLoopTest = [] := rfl
  have l4 : teardownOps.filter Op.isLoopTest = [] := rfl
  have l5 : List.filter Op.isLoopTest [Op.glfwWindowShouldClose] = [.glfwWindowShouldClose] := rfl
  rw [main_of_closes_at n fuel env hInit hWin hOpen hClose hFuel]
  refine ⟨rfl, ?_, ⟨(framesOps env n 0 (initialLocals env)).filterMap Op.updateArg?, h2, ?_⟩,
    ⟨initOps ++ createWindowOps ++ setupOps ⟨0, 1 / 2, -5⟩ ++
      framesOps env n 0 (initialLocals env), ?_⟩⟩
  · simp only [List.filter_append, l1, l2, l3, l4, l5, List.length_append, h3]
    simp
  · simp only [List.filter_append, e1, e2, e3, e4, e5, h1]
    have hfs : frameSteps = fun dt =>
        [ .glClear [.GL_COLOR_BUFFER_BIT, .GL_DEPTH_BUFFER_BIT],
          .meshUpdate dt, .meshDraw, .glfwSwapBuffers, .glfwPollEvents ] := rfl
    simp [hfs, teardownOps]
  · simp [teardownOps]

/-- Witness for C4: the window is closed after two frames. -/
theorem main_runs_frames_then_teardown_witness :
    (main 3 twoFrameEnv).status = some .EXIT_SUCCESS ∧
    ((main 3 twoFrameEnv).trace.filter Op.isLoopTest).length = 2 + 1 :=
  have h := main_runs_frames_then_teardown 2 3 twoFrameEnv rfl rfl
    (by intro k hk; simp [twoFrameEnv]; omega) (by simp [twoFrameEnv]) (by decide)
  ⟨h.1, h.2.1⟩

/-- C3. The camera and the light are fixed.  In a run that gets past window
creation, `mesh->position` is assigned once, the value `(0, 0.5, -5)`, before
any loop test, and not again; the local `cameraFocusPosition` holds that
value after any number of frames; every frame, whatever its number, the
framebuffer size and the clock reading, sets the `viewMatrix` uniform once,
to `lookAt` with eye `(-1, 1, 1)`, target `(0, 0.5, -5)` and up `(0, 1, 0)`,
and the `lightPos` uniform once, to `(-1, -1, 10)`; no call of the run sets
either uniform to anything else; a run whose first `n` loop tests answer
false sets each of the two uniforms, to these values, at least `n` times,
and exactly `n` times when the next loop test answers true. -/
theorem main_camera_and_light_fixed (fuel : Nat) (env : Env)
    (hInit : env.glfwInit = true) (hWin : env.glfwCreateWindow = true) :
    (main fuel env).trace.filterMap Op.meshPosition? = [⟨0, 1 / 2, -5⟩] ∧
    (∃ pre post : List Op,
      (main fuel env).trace = pre ++ .meshSetPosition ⟨0, 1 / 2, -5⟩ :: post ∧
      (∀ op ∈ pre, op.isLoopTest = false) ∧ (∀ op ∈ post, op.meshPosition? = none)) ∧
    (∀ k, (localsAfter env k).cameraFocusPosition = ⟨0, 1 / 2, -5⟩) ∧
    (∀ k,
      (frame env k (localsAfter env k)).2.filterMap Op.viewMatrix? =
        [.lookAt ⟨-1, 1, 1⟩ ⟨0, 1 / 2, -5⟩ ⟨0, 1, 0⟩] ∧
      (frame env k (localsAfter env k)).2.filterMap Op.lightPos? =
        [.vec3 ⟨-1, -1, 10⟩]) ∧
    (∀ op ∈ (main fuel env).trace,
      (∀ m, op.viewMatrix? = some m → m = .lookAt ⟨-1, 1, 1⟩ ⟨0, 1 / 2, -5⟩ ⟨0, 1, 0⟩) ∧
      (∀ v, op.lightPos? = some v → v = .vec3 ⟨-1, -1, 10⟩)) ∧
    (∀ n, (∀ k, k < n → env.glfwWindowShouldClose k = false) → n ≤ fuel →
      ∃ moreView moreLight,
        (main fuel env).trace.filterMap Op.viewMatrix? =
          List.replicate n (.lookAt ⟨-1, 1, 1⟩ ⟨0, 1 / 2, -5⟩ ⟨0, 1, 0⟩) ++ moreView ∧
        (main fuel env).trace.filterMap Op.lightPos? =
          List.replicate n (.vec3 ⟨-1, -1, 10⟩) ++ moreLight) ∧
    (∀ n, (∀ k, k < n → env.glfwWindowShouldClose k = false) →
      env.glfwWindowShouldClose n = true → n < fuel →
        (main fuel env).trace.filterMap Op.viewMatrix? =
          List.replicate n (.lookAt ⟨-1, 1, 1⟩ ⟨0, 1 / 2, -5⟩ ⟨0, 1, 0⟩) ∧
        (main fuel env).trace.filterMap Op.lightPos? =
          List.replicate n (.vec3 ⟨-1, -1, 10⟩)) := by
  have hcam : ∀ k, (localsAfter env k).cameraFocusPosition = ⟨0, 1 / 2, -5⟩ := fun k =>
    framesLocals_cameraFocusPosition env k 0 (initialLocals env)
  have hloop : ∀ op ∈ (whileLoop env fuel 0 (initialLocals env)).trace,
      op.meshPosition? = none ∧
      (∀ m, op.viewMatrix? = some m → m = .lookAt ⟨-1, 1, 1⟩ ⟨0, 1 / 2, -5⟩ ⟨0, 1, 0⟩) ∧
      (∀ v, op.lightPos? = some v → v = .vec3 ⟨-1, -1, 10⟩) :=
    whileLoop_trace_forall env (fun s => s.cameraFocusPosition = ⟨0, 1 / 2, -5⟩)
      (fun op => op.meshPosition? = none ∧
        (∀ m, op.viewMatrix? = some m → m = .lookAt ⟨-1, 1, 1⟩ ⟨0, 1 / 2, -5⟩ ⟨0, 1, 0⟩) ∧
        (∀ v, op.lightPos? = some v → v = .vec3 ⟨-1, -1, 10⟩))
      (fun _ _ hs => hs)
      (by simp [Op.meshPosition?, Op.viewMatrix?, Op.lightPos?])
      (by intro i s hs op hop
          simp only [frame_ops, hs, List.mem_cons, List.mem_singleton] at hop
          rcases hop with h | h | h | h | h | h | h | h | h | h | h | h <;>
            first
              | (subst h; simp [Op.meshPosition?, Op.viewMatrix?, Op.lightPos?])
              | simp at h)
      fuel 0 _ rfl
  have htail : ∀ op ∈ (whileLoop env fuel 0 (initialLocals env)).trace ++
      (if (whileLoop env fuel 0 (initialLocals env)).finished then teardownOps else []),
      op.meshPosition? = none ∧
      (∀ m, op.viewMatrix? = some m → m = .lookAt ⟨-1, 1, 1⟩ ⟨0, 1 / 2, -5⟩ ⟨0, 1, 0⟩) ∧
      (∀ v, op.lightPos? = some v → v = .vec3 ⟨-1, -1, 10⟩) := by
    intro op hop
    rcases List.mem_append.mp hop with h | h
    · exact hloop op h
    · split at h
      · simp only [teardownOps, List.mem_cons, List.mem_singleton] at h
        rcases h with h | h | h | h | h <;>
          first
            | (subst h; simp [Op.meshPosition?, Op.viewMatrix?, Op.lightPos?])
            | simp at h
      · simp at h
  have hpre : ∀ op ∈ initOps ++ createWindowOps ++ (setupOps ⟨0, 1 / 2, -5⟩).dropLast,
      op.isLoopTest = false ∧ op.meshPosition? = none ∧
      (∀ m, op.viewMatrix? = some m → m = .lookAt ⟨-1, 1, 1⟩ ⟨0, 1 / 2, -5⟩ ⟨0, 1, 0⟩) ∧
      (∀ v, op.lightPos? = some v → v = .vec3 ⟨-1, -1, 10⟩) := by
    intro op hop
    simp only [initOps, createWindowOps, setupOps, List.dropLast, List.cons_append,
      List.nil_append, List.mem_cons, List.mem_singleton] at hop
    rcases hop with h | h | h | h | h | h | h | h | h | h | h | h | h | h | h | h | h | h | h |
      h | h | h | h | h <;>
      first
        | (subst h; simp [Op.isLoopTest, Op.meshPosition?, Op.viewMatrix?, Op.lightPos?])
        | simp at h
  have hsplit : (main fuel env).trace =
      (initOps ++ createWindowOps ++ (setupOps ⟨0, 1 / 2, -5⟩).dropLast) ++
        .meshSetPosition ⟨0, 1 / 2, -5⟩ ::
          ((whileLoop env fuel 0 (initialLocals env)).trace ++
            (if (whileLoop env fuel 0 (initialLocals env)).finished then teardownOps else [])) := by
    rw [main_trace_of_window fuel env hInit hWin]
    simp [setupOps, List.dropLast]
  have v1 : initOps.filterMap Op.viewMatrix? = [] := rfl
  have v2 : createWindowOps.filterMap Op.viewMatrix? = [] := rfl
  have v3 : (setupOps ⟨0, 1 / 2, -5⟩).filterMap Op.viewMatrix? = [] := rfl
  have v4 : teardownOps.filterMap Op.viewMatrix? = [] := rfl
  have v5 : List.filterMap Op.viewMatrix? [Op.glfwWindowShouldClose] = [] := rfl
  have l1 : initOps.filterMap Op.lightPos? = [] := rfl
  have l2 : createWindowOps.filterMap Op.lightPos? = [] := rfl
  have l3 : (setupOps ⟨0, 1 / 2, -5⟩).filterMap Op.lightPos? = [] := rfl
  have l4 : teardownOps.filterMap Op.lightPos? = [] := rfl
  have l5 : List.filterMap Op.lightPos? [Op.glfwWindowShouldClose] = [] := rfl
  have hframes := fun n => framesOps_camera env n 0 (initialLocals env)
  have hc0 : (initialLocals env).cameraFocusPosition = ⟨0, 1 / 2, -5⟩ := rfl
  refine ⟨?_, ⟨_, _, hsplit, fun op hop => (hpre op hop).1, fun op hop => (htail op hop).1⟩,
    hcam, ?_, ?_, ?_, ?_⟩
  · rw [hsplit, List.filterMap_append, List.filterMap_cons]
    rw [List.filterMap_eq_nil_iff.mpr fun op hop => (hpre op hop).2.1,
      List.filterMap_eq_nil_iff.mpr fun op hop => (htail op hop).1]
    rfl
  · intro k
    simp [frame_ops, hcam k, Op.viewMatrix?, Op.lightPos?]
  · intro op hop
    rw [hsplit] at hop
    rcases List.mem_append.mp hop with h | h
    · exact (hpre op h).2.2
    · rcases List.mem_cons.mp h with h | h
      · subst h; simp [Op.viewMatrix?, Op.lightPos?]
      · exact (htail op h).2
  · intro n hOpen hn
    obtain ⟨f, rfl⟩ : ∃ f, fuel = n + f := ⟨fuel - n, by omega⟩
    obtain ⟨h1, _⟩ := whileLoop_of_open env n f 0 (initialLocals env) (by simpa using hOpen)
    rw [main_trace_of_window (n + f) env hInit hWin, h1]
    refine ⟨((whileLoop env f (0 + n) (framesLocals env n 0 (initialLocals env))).trace ++
        (if (whileLoop env (n + f) 0 (initialLocals env)).finished then teardownOps
          else [])).filterMap Op.viewMatrix?,
      ((whileLoop env f (0 + n) (framesLocals env n 0 (initialLocals env))).trace ++
        (if (whileLoop env (n + f) 0 (initialLocals env)).finished then teardownOps
          else [])).filterMap Op.lightPos?, ?_, ?_⟩
    · simp only [List.filterMap_append, v1, v2, v3, (hframes n).1, hc0, List.nil_append,
        List.append_assoc]
    · simp only [List.filterMap_append, l1, l2, l3, (hframes n).2, List.nil_append,
        List.append_assoc]
  · intro n hOpen hClose hn
    rw [main_of_closes_at n fuel env hInit hWin hOpen hClose hn]
    constructor
    · simp only [List.filterMap_append, v1, v2, v3, v4, v5, (hframes n).1, hc0, List.nil_append,
        List.append_nil]
    · simp only [List.filterMap_append, l1, l2, l3, l4, l5, (hframes n).2, List.nil_append,
        List.append_nil]

/-- Witness for C3: the two-frame run sets each uniform exactly twice. -/
theorem main_camera_and_light_fixed_witness :
    (main 3 twoFrameEnv).trace.filterMap Op.meshPosition? = [⟨0, 1 / 2, -5⟩] ∧
    (main 3 twoFrameEnv).trace.filterMap Op.viewMatrix? =
      List.replicate 2 (.lookAt ⟨-1, 1, 1⟩ ⟨0, 1 / 2, -5⟩ ⟨0, 1, 0⟩) ∧
    (main 3 twoFrameEnv).trace.filterMap Op.lightPos? =
      List.replicate 2 (.vec3 ⟨-1, -1, 10⟩) :=
  have h := main_camera_and_light_fixed 3 twoFrameEnv rfl rfl
  have h2 := h.2.2.2.2.2.2 2 (by intro k hk; simp [twoFrameEnv]; omega)
    (by simp [twoFrameEnv]) (by decide)
  ⟨h.1, h2.1, h2.2⟩

/-- C7, as amended.  The viewport and the projection follow the framebuffer
size frame by frame.  In a run of `n` frames the calls of `glViewport` and
the settings of the `projectionMatrix` uniform are, frame after frame,
`glViewport(0, 0, width, height)` and then `perspective` with field of view
`45`, an aspect ratio, near plane `13421773 / 134217728` (the value of the
literal `0.1f`) and far plane `10000`, where `(width, height)` is the size
reported in that same frame.  The aspect ratio is the binary32 quotient of
the binary32 conversions of `width` and `height`; for a nonzero `height` and
sizes up to `2 ^ 24` it is `width / height` rounded to binary32, and it is
`width / height` itself whenever the conversions and the division are exact.
The same calls are made by the body of any single frame started from any
values of the locals, so nothing is carried over from earlier frames. -/
theorem main_viewport_projection_follow_size (n fuel : Nat) (env : Env)
    (hInit : env.glfwInit = true) (hWin : env.glfwCreateWindow = true)
    (hOpen : ∀ k, k < n → env.glfwWindowShouldClose k = false)
    (hClose : env.glfwWindowShouldClose n = true) (hFuel : n < fuel) :
    ∃ aspect : Nat → FloatVal,
      (∀ k, aspect k =
        (float32OfInt (env.glfwGetFramebufferSize k).1).div32
          (float32OfInt (env.glfwGetFramebufferSize k).2)) ∧
      (∀ k, (env.glfwGetFramebufferSize k).2 ≠ 0 →
        (env.glfwGetFramebufferSize k).1.natAbs ≤ 2 ^ 24 →
        (env.glfwGetFramebufferSize k).2.natAbs ≤ 2 ^ 24 →
        aspect k = binary32.round (((env.glfwGetFramebufferSize k).1 : ℚ) /
          ((env.glfwGetFramebufferSize k).2 : ℚ))) ∧
      (∀ k, (env.glfwGetFramebufferSize k).2 ≠ 0 →
        binary32.round ((env.glfwGetFramebufferSize k).1 : ℚ) =
          .finite ((env.glfwGetFramebufferSize k).1 : ℚ) →
        binary32.round ((env.glfwGetFramebufferSize k).2 : ℚ) =
          .finite ((env.glfwGetFramebufferSize k).2 : ℚ) →
        binary32.round (((env.glfwGetFramebufferSize k).1 : ℚ) /
            ((env.glfwGetFramebufferSize k).2 : ℚ)) =
          .finite (((env.glfwGetFramebufferSize k).1 : ℚ) /
            ((env.glfwGetFramebufferSize k).2 : ℚ)) →
        aspect k = .finite (((env.glfwGetFramebufferSize k).1 : ℚ) /
          ((env.glfwGetFramebufferSize k).2 : ℚ))) ∧
      (main fuel env).trace.filter Op.isViewportOrProjection =
        ((List.range n).flatMap fun k =>
          [ .glViewport 0 0 (env.glfwGetFramebufferSize k).1 (env.glfwGetFramebufferSize k).2,
            .setUniform "projectionMatrix"
              (.mat4 (.perspective (.finite 45) (aspect k)
                (.finite (13421773 / 134217728)) (.finite 10000))) ]) ∧
      (∀ (k : Nat) (s : Locals),
        (frame env k s).2.filter Op.isViewportOrProjection =
          [ .glViewport 0 0 (env.glfwGetFramebufferSize k).1 (env.glfwGetFramebufferSize k).2,
            .setUniform "projectionMatrix"
              (.mat4 (.perspective (.finite 45) (aspect k)
                (.finite (13421773 / 134217728)) (.finite 10000))) ]) := by
  refine ⟨fun k => FloatVal.intDivFloat (env.glfwGetFramebufferSize k).1
    (env.glfwGetFramebufferSize k).2, fun k => rfl, ?_, ?_,
    main_viewportProjection_trace n fuel env hInit hWin hOpen hClose hFuel, ?_⟩
  · intro k hk hw hh
    exact intDivFloat_of_exact _ _ hk (round_intCast_of_natAbs_le _ hw)
      (round_intCast_of_natAbs_le _ hh)
  · intro k hk hw hh hq
    show FloatVal.intDivFloat _ _ = _
    rw [intDivFloat_of_exact _ _ hk hw hh, hq]
  · intro k s
    rw [frame_ops]
    simp [Op.isViewportOrProjection]

/-- Witness for C7: two frames, the first of size 1000 x 800, the second of
size 1200 x 800; both quotients are binary32 values. -/
theorem main_viewport_projection_follow_size_witness :
    ∃ aspect : Nat → FloatVal,
      aspect 0 = .finite (5 / 4) ∧ aspect 1 = .finite (3 / 2) ∧
      (main 3 twoFrameEnv).trace.filter Op.isViewportOrProjection =
        [ .glViewport 0 0 1000 800,
          .setUniform "projectionMatrix"
            (.mat4 (.perspective (.finite 45) (aspect 0)
              (.finite (13421773 / 134217728)) (.finite 10000))),
          .glViewport 0 0 1200 800,
          .setUniform "projectionMatrix"
            (.mat4 (.perspective (.finite 45) (aspect 1)
              (.finite (13421773 / 134217728)) (.finite 10000))) ] := by
  obtain ⟨aspect, _, _, ha, ht, _⟩ :=
    main_viewport_projection_follow_size 2 3 twoFrameEnv rfl rfl
      (by intro k hk; simp [twoFrameEnv]; omega) (by simp [twoFrameEnv]) (by decide)
  have r54 : binary32.round (5 / 4) = .finite (5 / 4) :=
    round_pos_eq binary32 _ 5 4 (5 * 2 ^ 21) (-23) _ (by norm_num) (by norm_num) (by norm_num)
      (by decide) (by decide) (by norm_num) (by norm_num [binary32])
  have r32 : binary32.round (3 / 2) = .finite (3 / 2) :=
    round_pos_eq binary32 _ 3 2 (3 * 2 ^ 22) (-23) _ (by norm_num) (by norm_num) (by norm_num)
      (by decide) (by decide) (by norm_num) (by norm_num [binary32])
  have q0 : (((twoFrameEnv.glfwGetFramebufferSize 0).1 : ℚ) /
      ((twoFrameEnv.glfwGetFramebufferSize 0).2 : ℚ)) = 5 / 4 := by norm_num [twoFrameEnv]
  have q1 : (((twoFrameEnv.glfwGetFramebufferSize 1).1 : ℚ) /
      ((twoFrameEnv.glfwGetFramebufferSize 1).2 : ℚ)) = 3 / 2 := by norm_num [twoFrameEnv]
  refine ⟨aspect, ?_, ?_, ?_⟩
  · have := ha 0 (by simp [twoFrameEnv])
      (round_intCast_of_natAbs_le _ (by simp [twoFrameEnv]))
      (round_intCast_of_natAbs_le _ (by simp [twoFrameEnv])) (by rw [q0]; exact r54)
    rw [this, q0]
  · have := ha 1 (by simp [twoFrameEnv])
      (round_intCast_of_natAbs_le _ (by simp [twoFrameEnv]))
      (round_intCast_of_natAbs_le _ (by simp [twoFrameEnv])) (by rw [q1]; exact r32)
    rw [this, q1]
  · rw [ht]
    simp [List.range_succ, twoFrameEnv]

/-- Counterexample to C7 as stated: in the one-frame run with a framebuffer
of 1366 x 768 the aspect ratio passed to `perspective` is
`14920363 / 8388608`, which is not `1366 / 768`, and the near plane is
`13421773 / 134217728`, which is not `1 / 10`. -/
theorem main_viewport_projection_inexact_at_1366x768 :
    (main 2 laptopEnv).trace.filter Op.isViewportOrProjection =
      [ .glViewport 0 0 1366 768,
        .setUniform "projectionMatrix"
          (.mat4 (.perspective (.finite 45) (.finite (14920363 / 8388608))
            (.finite (13421773 / 134217728)) (.finite 10000))) ] ∧
    (14920363 / 8388608 : ℚ) ≠ 1366 / 768 ∧
    (13421773 / 134217728 : ℚ) ≠ 1 / 10 := by
  have hq : FloatVal.intDivFloat 1366 768 = .finite (14920363 / 8388608) := by
    rw [intDivFloat_of_exact 1366 768 (by decide)
      (round_intCast_of_natAbs_le _ (by decide)) (round_intCast_of_natAbs_le _ (by decide))]
    exact round_pos_eq binary32 _ 683 384 14920363 (-23) _ (by norm_num) (by norm_num)
      (by norm_num) (by decide) (by decide) (by norm_num) (by norm_num [binary32])
  refine ⟨?_, by norm_num, by norm_num⟩
  rw [main_viewportProjection_trace 1 2 laptopEnv rfl rfl
    (by intro k hk; simp [laptopEnv]; omega) (by simp [laptopEnv]) (by decide)]
  simp [List.range_succ, laptopEnv, hq]

/-- C8. The frame timer in exact arithmetic.  When the clock readings
`t 0` (before the loop), `t 1`, ..., `t n` (one per frame) never decrease and
the arithmetic is exact, that is, every difference `t (k + 1) - t k` is a
binary64 value, so that the subtraction of line 127 does not round, then in a
run of `n` frames the values passed to `Update` are, frame after frame,
`t (k + 1) - t k` for `k = 0, ..., n - 1`; none of them is negative;
`previousTime` equals `t k` after `k` frames for every `k` up to `n`; and the
values passed to `Update` add up to `t n - t 0`. -/
theorem main_frame_timer (n fuel : Nat) (env : Env)
    (hInit : env.glfwInit = true) (hWin : env.glfwCreateWindow = true)
    (hOpen : ∀ k, k < n → env.glfwWindowShouldClose k = false)
    (hClose : env.glfwWindowShouldClose n = true) (hFuel : n < fuel)
    (hMono : ∀ k, k < n → env.glfwGetTime k ≤ env.glfwGetTime (k + 1))
    (hExact : ∀ k, k < n →
      binary64.round (env.glfwGetTime (k + 1) - env.glfwGetTime k) =
        .finite (env.glfwGetTime (k + 1) - env.glfwGetTime k)) :
    (main fuel env).trace.filterMap Op.updateArg? =
      (List.range n).map
        (fun k => FloatVal.finite (env.glfwGetTime (k + 1) - env.glfwGetTime k)) ∧
    (∀ dt ∈ (main fuel env).trace.filterMap Op.updateArg?, ∃ q, dt = .finite q ∧ 0 ≤ q) ∧
    (∀ k, k ≤ n → (localsAfter env k).previousTime = env.glfwGetTime k) ∧
    ((main fuel env).trace.filterMap Op.updateSeconds?).sum =
      env.glfwGetTime n - env.glfwGetTime 0 := by
  have e1 : initOps.filterMap Op.updateArg? = [] := rfl
  have e2 : createWindowOps.filterMap Op.updateArg? = [] := rfl
  have e3 : (setupOps ⟨0, 1 / 2, -5⟩).filterMap Op.updateArg? = [] := rfl
  have e4 : teardownOps.filterMap Op.updateArg? = [] := rfl
  have e5 : List.filterMap Op.updateArg? [Op.glfwWindowShouldClose] = [] := rfl
  have s1 : initOps.filterMap Op.updateSeconds? = [] := rfl
  have s2 : createWindowOps.filterMap Op.updateSeconds? = [] := rfl
  have s3 : (setupOps ⟨0, 1 / 2, -5⟩).filterMap Op.updateSeconds? = [] := rfl
  have s4 : teardownOps.filterMap Op.updateSeconds? = [] := rfl
  have s5 : List.filterMap Op.updateSeconds? [Op.glfwWindowShouldClose] = [] := rfl
  have hframes := framesOps_timer env n 0 (initialLocals env) rfl
    (fun k _ hk => hMono k (by omega)) (fun k _ hk => hExact k (by omega))
  have hargs : (main fuel env).trace.filterMap Op.updateArg? =
      (List.range n).map
        (fun k => FloatVal.finite (env.glfwGetTime (k + 1) - env.glfwGetTime k)) := by
    rw [main_of_closes_at n fuel env hInit hWin hOpen hClose hFuel]
    simp only [List.filterMap_append, e1, e2, e3, e4, e5, List.range_eq_range', hframes.1]
    simp
  have hsecs : (main fuel env).trace.filterMap Op.updateSeconds? =
      (List.range n).map (fun k => env.glfwGetTime (k + 1) - env.glfwGetTime k) := by
    rw [main_of_closes_at n fuel env hInit hWin hOpen hClose hFuel]
    simp only [List.filterMap_append, s1, s2, s3, s4, s5, List.range_eq_range', hframes.2.1]
    simp
  refine ⟨hargs, ?_, ?_, ?_⟩
  · intro dt hdt
    rw [hargs, List.mem_map] at hdt
    obtain ⟨k, hk, rfl⟩ := hdt
    have := hMono k (List.mem_range.mp hk)
    exact ⟨_, rfl, by linarith⟩
  · intro k hk
    have := (framesOps_timer env k 0 (initialLocals env) rfl
      (fun j _ hj => hMono j (by omega)) (fun j _ hj => hExact j (by omega))).2.2
    simpa [localsAfter] using this
  · rw [hsecs, sum_differences]

/-- Witness for C8: two frames, the clock advancing by 1/64 each. -/
theorem main_frame_timer_witness :
    (main 3 twoFrameEnv).trace.filterMap Op.updateArg? =
      [.finite (1 / 64), .finite (1 / 64)] ∧
    (localsAfter twoFrameEnv 2).previousTime = 2 / 64 ∧
    ((main 3 twoFrameEnv).trace.filterMap Op.updateSeconds?).sum = 2 / 64 := by
  have r64 : binary64.round (1 / 64) = .finite (1 / 64) :=
    round_pos_eq binary64 _ 1 64 (2 ^ 52) (-58) _ (by norm_num) (by norm_num) (by norm_num)
      (by decide) (by decide) (by norm_num) (by norm_num [binary64])
  have hd : ∀ k : Nat, twoFrameEnv.glfwGetTime (k + 1) - twoFrameEnv.glfwGetTime k = 1 / 64 := by
    intro k
    simp only [twoFrameEnv]
    push_cast
    ring
  have h := main_frame_timer 2 3 twoFrameEnv rfl rfl
    (by intro k hk; simp [twoFrameEnv]; omega) (by simp [twoFrameEnv]) (by decide)
    (by intro k _; have := hd k; linarith)
    (by intro k _; rw [hd k]; exact r64)
  refine ⟨?_, ?_, ?_⟩
  · rw [h.1]
    simp [List.range_succ, hd]
  · rw [h.2.2.1 2 (Nat.le_refl 2)]
    norm_num [twoFrameEnv]
  · rw [h.2.2.2]
    norm_num [twoFrameEnv]

end S3DImporter
